import Mathlib

/-!
Verification development for the k9s AI subsystem: a shallow embedding of
the session orchestrator (internal/ai/client.go), the skill registry and
tool factory (internal/ai/skills.go), the AI configuration
(internal/config/ai.go) and the runtime resolver, together with theorems
about their behaviour.

External effects (the Copilot runtime, the Kubernetes API, the network)
are modelled as explicit environment records passed to the embedded
functions; machine integers are modelled as Int/Nat (no overflow is
relevant to the properties below); fallible operations return Except.
-/

namespace K9sAI

/-- A Copilot tool as registered by the tool factory: `copilot.DefineTool`
receives a name, a description and an invocation function.  The invocation
functions are dynamically typed in the source and are embedded separately
as standalone functions (`getLogsRun`, `getEventsRun`); the descriptor
carries the name and description. -/
structure Tool where
  name : String
  description : String
deriving DecidableEq, Repr

/-- Skill: named group of tools and a specialized system message
(internal/ai/skills.go). -/
structure Skill where
  name : String
  description : String
  toolNames : List String
  systemSuffix : String
  reasoningEffort : String
deriving DecidableEq, Repr

/-- SkillRegistry holds all available built-in skills.  The Go map
`skills map[string]*Skill` is embedded as an association list with
overwrite-on-register semantics. -/
structure SkillRegistry where
  skills : List (String × Skill)
deriving DecidableEq, Repr

/-- Map lookup `r.skills[name]`. -/
def SkillRegistry.find (r : SkillRegistry) (name : String) : Option Skill :=
  (r.skills.lookup name)

/-- Register adds a skill to the registry (`r.skills[s.Name] = s`:
insert or overwrite by name). -/
def SkillRegistry.Register (r : SkillRegistry) (s : Skill) : SkillRegistry :=
  { skills := (s.name, s) :: r.skills.filter (fun p => p.1 ≠ s.name) }

/-- Get returns a skill by name (`s, ok := r.skills[name]`). -/
def SkillRegistry.Get (r : SkillRegistry) (name : String) : Option Skill :=
  r.find name

/-- The built-in diagnostics skill registered by NewSkillRegistry. -/
def diagnosticsSkill : Skill :=
  { name := "diagnostics"
    description := "Diagnose unhealthy pods, deployments, and workloads"
    toolNames :=
      [ "get_pod_diagnostics", "get_logs", "get_events",
        "describe_resource", "get_cluster_health", "get_resource" ]
    systemSuffix :=
      "\nFocus: Root-cause analysis and remediation.\nWorkflow: Always start by fetching diagnostics/description, then events, then logs (with previous=true for crashes).\nPrioritize: CrashLoopBackOff > OOMKilled > ImagePullBackOff > Pending (scheduling) > other.\nFor each issue found, provide a specific fix (kubectl command or YAML patch)."
    reasoningEffort := "" }

/-- The built-in security skill registered by NewSkillRegistry. -/
def securitySkill : Skill :=
  { name := "security"
    description := "RBAC auditing, security posture, and policy analysis"
    toolNames :=
      [ "check_rbac", "get_resource", "describe_resource", "list_resources" ]
    systemSuffix :=
      "\nFocus: Security posture and RBAC analysis.\nCheck for: Overly permissive ClusterRoleBindings, wildcard verbs/resources, secrets mounted unnecessarily, containers running as root, missing network policies, service accounts with excessive permissions.\nWhen auditing RBAC: enumerate role bindings, check for privilege escalation paths, verify least-privilege principle.\nFlag any security concerns with severity (Critical/High/Medium/Low)."
    reasoningEffort := "" }

/-- The built-in optimization skill registered by NewSkillRegistry. -/
def optimizationSkill : Skill :=
  { name := "optimization"
    description := "Resource utilization, cost optimization, and scaling"
    toolNames :=
      [ "get_cluster_health", "list_resources", "get_resource",
        "describe_resource", "get_pod_diagnostics" ]
    systemSuffix :=
      "\nFocus: Resource efficiency, cost optimization, and scaling recommendations.\nAnalyze: CPU/memory requests vs limits, over-provisioned pods, under-utilized nodes, missing resource requests.\nRecommend: Right-sized resource requests, HPA configurations, PDB settings, node pool sizing.\nCompare actual usage patterns with configured limits when data is available."
    reasoningEffort := "" }

/-- NewSkillRegistry returns a registry pre-loaded with the three
built-in skills. -/
def NewSkillRegistry : SkillRegistry :=
  (((SkillRegistry.mk []).Register diagnosticsSkill).Register
    securitySkill).Register optimizationSkill

/-- FilterTools returns only the tools matching the given skill.
If skillName is empty, returns all tools unfiltered; if the skill is
unknown, likewise.  The Go body builds a set `allowed` from the skill's
ToolNames and appends the tools whose name is in the set, in input
order, which is exactly a filter by allowlist membership. -/
def SkillRegistry.FilterTools (r : SkillRegistry) (skillName : String)
    (allTools : List Tool) : List Tool :=
  if skillName = "" then allTools
  else
    match r.find skillName with
    | none => allTools
    | some skill => allTools.filter (fun t => skill.toolNames.contains t.name)

/-- SystemMessageSuffix returns the skill-specific system message suffix;
empty string if skill is not found or name is empty. -/
def SkillRegistry.SystemMessageSuffix (r : SkillRegistry) (skillName : String) :
    String :=
  if skillName = "" then ""
  else
    match r.find skillName with
    | none => ""
    | some skill => skill.systemSuffix

/-- BuildTools returns all Kubernetes-aware tools for the Copilot session
(ToolFactory.BuildTools): the eight built-in tool descriptors in
registration order. -/
def BuildTools : List Tool :=
  [ { name := "get_resource"
      description := "Fetch a specific Kubernetes resource by GVR, name, and namespace. Returns the resource as YAML." },
    { name := "list_resources"
      description := "List Kubernetes resources of a given type. Returns a summary table with key fields (name, namespace, status, age)." },
    { name := "describe_resource"
      description := "Get the full kubectl-style description of a Kubernetes resource, including events and conditions." },
    { name := "get_logs"
      description := "Fetch container logs for a pod. Essential for diagnosing CrashLoopBackOff, application errors, and runtime issues." },
    { name := "get_events"
      description := "Fetch Kubernetes events, optionally filtered by namespace, resource, or type. Events reveal scheduling failures, image pulls, OOM kills, and more." },
    { name := "get_cluster_health"
      description := "Get a high-level cluster health overview: node count, pod counts by status, resource utilization summary." },
    { name := "get_pod_diagnostics"
      description := "Get comprehensive diagnostics for a specific pod: phase, container states, restart counts, exit codes, resource usage, probe status, and recent events." },
    { name := "check_rbac"
      description := "Check if the current user has permission to perform a specific action on a resource in a namespace." } ]

/-! ## Configuration (internal/config/ai.go) -/

/-- AzureProviderOpts tracks Azure-specific provider configuration. -/
structure AzureProviderOpts where
  apiVersion : String
deriving DecidableEq, Repr

/-- AIProvider tracks BYOK (Bring Your Own Key) provider configuration. -/
structure AIProvider where
  type : String
  baseURL : String
  apiKey : String
  bearerToken : String
  wireAPI : String
  azure : Option AzureProviderOpts
deriving DecidableEq, Repr

/-- AI tracks AI/Copilot configuration options. -/
structure AIConfig where
  enabled : Bool
  model : String
  provider : Option AIProvider
  streaming : Bool
  maxContextLines : Int
  autoDiagnose : Bool
  reasoningEffort : String
  activeSkill : String
  githubToken : String
deriving DecidableEq, Repr

/-- Modelled from the spec: `config.AI.IsEnabled` is called by the client
but its body is not among the source files (only the `Enabled` flag is);
per the specification the configuration surface exposes an "enabled flag"
and `IsEnabled()` "reads configuration; no side effects", so it is
modelled as reading that flag. -/
def AIConfig.IsEnabled (a : AIConfig) : Bool :=
  a.enabled

/-- ResolveAPIKey returns the API key from config or the K9S_AI_API_KEY
environment variable; the environment variable's value is passed
explicitly. -/
def AIProvider.ResolveAPIKey (p : AIProvider) (envAPIKey : String) : String :=
  if p.apiKey ≠ "" then p.apiKey else envAPIKey

/-- ResolveBearerToken returns the bearer token from config or the
K9S_AI_BEARER_TOKEN environment variable, passed explicitly. -/
def AIProvider.ResolveBearerToken (p : AIProvider) (envBearer : String) : String :=
  if p.bearerToken ≠ "" then p.bearerToken else envBearer

/-! ## Session configuration and client state (internal/ai/client.go) -/

/-- The provider override block handed to the runtime
(copilot.ProviderConfig), as assembled by createSession. -/
structure ProviderConfig where
  type : String
  baseURL : String
  apiKey : String
  bearerToken : String
  wireApi : String
  azureAPIVersion : Option String
deriving DecidableEq, Repr

/-- The base k9s system message (k9sSystemMessage in client.go).  The
exact prose is irrelevant to every property below; it is embedded as an
abbreviated constant standing for the full literal, and only ever used
as an opaque prefix of the session's system message. -/
def k9sSystemMessage : String :=
  "You are an expert Kubernetes cluster assistant integrated into K9s, a terminal-based Kubernetes management UI."

/-- The session configuration assembled by createSession
(copilot.SessionConfig): model, streaming flag, tool list, system
message (base + optional skill suffix), optional reasoning effort and
optional BYOK provider block.  The infinite-session/compaction options
and the hook callbacks are constants in the source and carry no state. -/
structure SessionConfig where
  model : String
  streaming : Bool
  tools : List Tool
  systemMessage : String
  reasoningEffort : Option String
  provider : Option ProviderConfig
deriving DecidableEq, Repr

/-- A live Copilot session handle: it records the configuration it was
created with (the remote runtime instantiates exactly the requested
configuration) plus an identity tag distinguishing it from other
sessions. -/
structure Session where
  cfg : SessionConfig
  id : Nat
deriving DecidableEq, Repr

/-- AIClient wraps the Copilot SDK client with k9s-specific
configuration.  The runtime client handle is an opaque token
(`Option Unit`: present iff `c.client != nil`), the session handle is
nullable, and the lock is left implicit (the embedding is sequential:
each operation is one critical section or a sequence of them). -/
structure AIClient where
  client : Option Unit
  session : Option Session
  cfg : AIConfig
  tools : List Tool
  allTools : List Tool
  skills : SkillRegistry
  initialized : Bool
deriving DecidableEq, Repr

/-- NewAIClient creates a new AI client instance. -/
def NewAIClient (cfg : AIConfig) : AIClient :=
  { client := none, session := none, cfg := cfg, tools := [],
    allTools := [], skills := NewSkillRegistry, initialized := false }

/-- IsEnabled returns true if AI features are enabled. -/
def AIClient.IsEnabled (c : AIClient) : Bool :=
  c.cfg.IsEnabled

/-- The session event types routed by Send's per-turn subscription
(the cases of the switch in client.go lines 361-388). -/
inductive SessionEventType where
  | assistantMessageDelta
  | assistantStreamingDelta
  | assistantReasoningDelta
  | assistantReasoning
  | toolExecutionStart
  | toolExecutionComplete
  | sessionError
  | other
deriving DecidableEq, Repr

/-- A session event as seen by the subscription handler: a type tag and
the optional data fields the handler reads. -/
structure SessionEvent where
  type : SessionEventType
  deltaContent : Option String
  content : Option String
  toolName : Option String
  message : Option String
deriving DecidableEq, Repr

/-- The final reply of SendAndWait: `response.Data.Content` is an
optional string (the response pointer itself may also be nil, modelled
by wrapping in a further Option in the environment). -/
structure ResponseMessage where
  content : Option String
deriving DecidableEq, Repr

/-- The environment of one client operation: the outcomes of the
external effects it may perform.  `startOk` is the outcome of
`client.Start` during a lazy Init; `createOk` and `sessionId` govern
`client.CreateSession`; `events` is the stream of session events the
runtime delivers to the per-turn subscription while SendAndWait is in
flight; `sendResult` is the outcome of `session.SendAndWait`;
`envAPIKey`/`envBearer` are the provider credential environment
variables. -/
structure SessionEnv where
  startOk : Bool
  createOk : Bool
  sessionId : Nat
  events : List SessionEvent
  sendResult : String → Except String (Option ResponseMessage)
  envAPIKey : String
  envBearer : String

/-- One listener callback invocation (the Listener interface of
client.go). -/
inductive ListenerCall where
  | responseStart
  | responseDelta (content : String)
  | responseComplete (content : String)
  | responseFailed (err : String)
  | reasoningDelta (content : String)
  | reasoningComplete (content : String)
  | toolStart (toolName : String)
  | toolComplete (toolName : String)
deriving DecidableEq, Repr

/-- The per-turn subscription handler registered by Send via
`session.On` (client.go lines 358-389): routes one session event to the
corresponding listener callbacks (zero or one call per event; the
SessionError case only logs). -/
def routeEvent (ev : SessionEvent) : List ListenerCall :=
  match ev.type with
  | .assistantMessageDelta =>
      match ev.deltaContent with
      | some s => [ListenerCall.responseDelta s]
      | none => []
  | .assistantStreamingDelta =>
      match ev.deltaContent with
      | some s => [ListenerCall.responseDelta s]
      | none => []
  | .assistantReasoningDelta =>
      match ev.deltaContent with
      | some s => [ListenerCall.reasoningDelta s]
      | none => []
  | .assistantReasoning =>
      match ev.content with
      | some s => [ListenerCall.reasoningComplete s]
      | none => []
  | .toolExecutionStart =>
      match ev.toolName with
      | some s => [ListenerCall.toolStart s]
      | none => []
  | .toolExecutionComplete =>
      match ev.toolName with
      | some s => [ListenerCall.toolComplete s]
      | none => []
  | .sessionError => []
  | .other => []

/-- Init initializes the Copilot SDK client and starts the CLI server:
no-op when disabled or already initialized; otherwise resolves the CLI
path and token (options only, no modelled state), creates the client
and starts it.  On start failure the state is left uninitialized so a
later call can retry. -/
def AIClient.Init (c : AIClient) (env : SessionEnv) :
    Except String Unit × AIClient :=
  if ¬ c.cfg.IsEnabled then (Except.ok (), c)
  else if c.initialized then (Except.ok (), c)
  else if env.startOk then
    (Except.ok (), { c with client := some (), initialized := true })
  else
    (Except.error "copilot init failed", c)

/-- Stop shuts down the session then the client and clears the
initialized flag. -/
def AIClient.Stop (c : AIClient) : AIClient :=
  { c with session := none, client := none, initialized := false }

/-- SetTools stores the full tool set and refilters with the active
skill. -/
def AIClient.SetTools (c : AIClient) (tools : List Tool) : AIClient :=
  { c with allTools := tools
           tools := c.skills.FilterTools c.cfg.activeSkill tools }

/-- SetSkill switches the active skill, refilters tools, and destroys the
current session so the next Send creates one with the new skill
context. -/
def AIClient.SetSkill (c : AIClient) (name : String) : AIClient :=
  { c with cfg := { c.cfg with activeSkill := name }
           tools := c.skills.FilterTools name c.allTools
           session := none }

/-- SetModel switches the active model and resets the session. -/
def AIClient.SetModel (c : AIClient) (model : String) : AIClient :=
  { c with cfg := { c.cfg with model := model }
           session := none }

/-- The provider override block createSession assembles when a BYOK
provider with a non-empty base URL is configured (client.go lines
277-297). -/
def mkProviderConfig (p : AIProvider) (env : SessionEnv) : ProviderConfig :=
  { type := p.type
    baseURL := p.baseURL
    apiKey := p.ResolveAPIKey env.envAPIKey
    bearerToken := p.ResolveBearerToken env.envBearer
    wireApi := p.wireAPI
    azureAPIVersion :=
      match p.azure with
      | some az => if az.apiVersion ≠ "" then some az.apiVersion else none
      | none => none }

/-- The session configuration createSession would submit for the current
client state: base system message plus the active skill's suffix (when
non-empty), current model, streaming flag, the filtered tool list,
reasoning effort when configured, and the provider block when a BYOK
provider with a non-empty endpoint is configured. -/
def AIClient.sessionConfig (c : AIClient) (env : SessionEnv) : SessionConfig :=
  let suffix := c.skills.SystemMessageSuffix c.cfg.activeSkill
  { model := c.cfg.model
    streaming := c.cfg.streaming
    tools := c.tools
    systemMessage :=
      if suffix ≠ "" then k9sSystemMessage ++ "\n\n" ++ suffix
      else k9sSystemMessage
    reasoningEffort :=
      if c.cfg.reasoningEffort ≠ "" then some c.cfg.reasoningEffort else none
    provider :=
      match c.cfg.provider with
      | some p => if p.baseURL ≠ "" then some (mkProviderConfig p env) else none
      | none => none }

/-- createSession creates a new Copilot session with the k9s system
message and tools; fails when the client is not initialized, and
otherwise succeeds or fails according to the runtime's answer
(`env.createOk`), the new session carrying exactly the submitted
configuration. -/
def AIClient.createSession (c : AIClient) (env : SessionEnv) :
    Except String Session :=
  if ¬ (c.initialized ∧ c.client.isSome) then
    Except.error "AI client not initialized"
  else if env.createOk then
    Except.ok { cfg := c.sessionConfig env, id := env.sessionId }
  else
    Except.error "failed to create AI session"

/-- EnsureSession returns the current session or creates a new one,
caching it on success. -/
def AIClient.EnsureSession (c : AIClient) (env : SessionEnv) :
    Except String Session × AIClient :=
  match c.session with
  | some s => (Except.ok s, c)
  | none =>
      match c.createSession env with
      | Except.ok s => (Except.ok s, { c with session := some s })
      | Except.error e => (Except.error e, c)

/-- ResetSession destroys the current session only. -/
def AIClient.ResetSession (c : AIClient) : AIClient :=
  { c with session := none }

/-- The final content Send extracts from the SendAndWait reply
(client.go lines 402-405): empty when the response pointer or its
content field is nil, the content string otherwise. -/
def responseContent (response : Option ResponseMessage) : String :=
  match response with
  | some r =>
      match r.content with
      | some s => s
      | none => ""
  | none => ""

/-- The outcome of one Send call: the returned error (or unit), the
listener callbacks invoked during the turn in order, whether the lazy
Init was attempted, and the post-state. -/
structure SendOutcome where
  res : Except String Unit
  calls : List ListenerCall
  initAttempted : Bool
  st : AIClient

/-- Send sends a prompt to the AI and streams the response to the
listener (client.go lines 333-410): reject when disabled; lazily Init
when uninitialized, wrapping failure as "AI not ready"; obtain or
create the session; notify ResponseStart; route the events delivered
during the turn through the subscription handler; on SendAndWait
failure notify ResponseFailed with the wrapped error and return the
raw error; on success notify ResponseComplete with the reply content
(empty when the response or its content field is nil) and return
success.  The overall five-minute timeout surfaces, when it expires,
as a SendAndWait failure in the environment. -/
def AIClient.Send (c : AIClient) (env : SessionEnv) (prompt : String) :
    SendOutcome :=
  if ¬ c.IsEnabled then
    { res := Except.error
        "AI features are disabled. Enable in config: k9s.ai.enabled=true"
      calls := [], initAttempted := false, st := c }
  else
    let lazyInit : Except String Unit × AIClient × Bool :=
      if ¬ c.initialized then
        match c.Init env with
        | (Except.ok _, c1) => (Except.ok (), c1, true)
        | (Except.error e, c1) =>
            (Except.error ("AI not ready: " ++ e), c1, true)
      else (Except.ok (), c, false)
    match lazyInit with
    | (Except.error e, c1, att) =>
        { res := Except.error e, calls := [], initAttempted := att, st := c1 }
    | (Except.ok _, c1, att) =>
        match c1.EnsureSession env with
        | (Except.error e, c2) =>
            { res := Except.error e, calls := [], initAttempted := att,
              st := c2 }
        | (Except.ok _s, c2) =>
            let relayed := env.events.flatMap routeEvent
            match env.sendResult prompt with
            | Except.error e =>
                { res := Except.error e
                  calls := ListenerCall.responseStart ::
                    (relayed ++ [ListenerCall.responseFailed
                      ("AI request failed: " ++ e)])
                  initAttempted := att, st := c2 }
            | Except.ok response =>
                { res := Except.ok ()
                  calls := ListenerCall.responseStart ::
                    (relayed ++
                     [ListenerCall.responseComplete (responseContent response)])
                  initAttempted := att, st := c2 }

/-! ## Tool invocation functions (internal/ai/skills.go) -/

/-- The pod-log options assembled by the get_logs handler. -/
structure PodLogOptions where
  container : String
  tailLines : Int
  previous : Bool
deriving DecidableEq, Repr

/-- Parameters of the get_logs tool (getLogsParams). -/
structure LogsParams where
  podName : String
  ns : String
  container : String
  tailLines : Int
  previous : Bool
deriving DecidableEq, Repr

/-- The fixed per-call log byte ceiling: `maxBytes := int64(256 * 1024)`. -/
def maxLogBytes : Nat := 256 * 1024

/-- Environment of a get_logs call: whether the cluster dial succeeds,
and the log byte stream the API serves for a namespace, pod and option
set (or a streaming error). -/
structure LogsEnv where
  dialOk : Bool
  stream : String → String → PodLogOptions → Except String (List Nat)

/-- The get_logs invocation function (skills.go lines 343-387): dial,
default the tail-line count to 100 when non-positive, request the log
stream, and read it through an `io.LimitedReader` with budget
`maxLogBytes` — i.e. keep at most the first `maxLogBytes` bytes.  A
read error after streaming begins is surfaced like a stream error. -/
def getLogsRun (env : LogsEnv) (p : LogsParams) : Except String (List Nat) :=
  if ¬ env.dialOk then Except.error "failed to connect to cluster"
  else
    let tailLines : Int := if p.tailLines ≤ 0 then 100 else p.tailLines
    let opts : PodLogOptions :=
      { container := p.container, tailLines := tailLines,
        previous := p.previous }
    match env.stream p.ns p.podName opts with
    | Except.error e => Except.error ("failed to stream logs: " ++ e)
    | Except.ok bytes => Except.ok (bytes.take maxLogBytes)

/-- Parameters of the get_events tool (getEventsParams). -/
structure EventsParams where
  ns : String
  resourceName : String
  eventType : String
  limit : Int
deriving DecidableEq, Repr

/-- The list options the get_events handler passes to the events API:
only the field selector is set (to `involvedObject.name=<name>` when a
resource-name filter was requested). -/
structure ListOptions where
  fieldSelector : String
deriving DecidableEq, Repr

/-- A Kubernetes event as read by the get_events handler. -/
structure KEvent where
  type : String
  reason : String
  message : String
  involvedObjectKind : String
  involvedObjectName : String
  count : Int
  firstSeen : String
  lastSeen : String
deriving DecidableEq, Repr

/-- The per-event record the handler appends to its results (the
`map[string]string` literal in skills.go lines 432-440). -/
structure EventRow where
  type : String
  reason : String
  message : String
  object : String
  count : String
  firstSeen : String
  lastSeen : String
deriving DecidableEq, Repr

/-- Build one result row from an event. -/
def eventRow (ev : KEvent) : EventRow :=
  { type := ev.type, reason := ev.reason, message := ev.message
    object := ev.involvedObjectKind ++ "/" ++ ev.involvedObjectName
    count := toString ev.count
    firstSeen := ev.firstSeen, lastSeen := ev.lastSeen }

/-- The collection loop of get_events (skills.go lines 427-441),
applied to the reversed retrieved list: walk the events, stop once
`limit` rows have been collected, skip events whose type differs from a
non-empty requested type, and emit a row for each kept event. -/
def collectEvents (eventType : String) : Nat → List KEvent → List EventRow
  | _, [] => []
  | limit, ev :: rest =>
      if limit = 0 then []
      else if eventType ≠ "" ∧ ev.type ≠ eventType then
        collectEvents eventType limit rest
      else
        eventRow ev :: collectEvents eventType (limit - 1) rest

/-- Environment of a get_events call: whether the dial succeeds, and the
event list the API returns for a namespace and option set (the server
interprets the field selector; its behaviour is part of the
environment). -/
structure EventsEnv where
  dialOk : Bool
  list : String → ListOptions → Except String (List KEvent)

/-- The list options the get_events handler builds (skills.go lines
411-414): the field selector carries the involved-object-name filter
when a resource name was requested, so that filter is evaluated by the
API server, not by the handler. -/
def eventsListOptions (p : EventsParams) : ListOptions :=
  { fieldSelector :=
      if p.resourceName ≠ "" then "involvedObject.name=" ++ p.resourceName
      else "" }

/-- The result of a successful get_events call: the `total` field and
the rows actually returned. -/
structure EventsResult where
  total : Nat
  events : List EventRow
deriving DecidableEq, Repr

/-- The get_events invocation function (skills.go lines 404-447): dial,
build the list options (field selector from the resource-name filter),
retrieve the events, default the limit to 30 when non-positive, and
collect rows from most recent (last retrieved) backwards, filtering by
event type client-side, capped at the limit; `total` is the size of the
retrieved list. -/
def getEventsRun (env : EventsEnv) (p : EventsParams) :
    Except String EventsResult :=
  if ¬ env.dialOk then Except.error "failed to connect to cluster"
  else
    match env.list p.ns (eventsListOptions p) with
    | Except.error e => Except.error ("failed to list events: " ++ e)
    | Except.ok items =>
        let limit : Int := if p.limit ≤ 0 then 30 else p.limit
        Except.ok
          { total := items.length
            events := collectEvents p.eventType limit.toNat items.reverse }

/-- The events Claim C5 says a successful get_events call returns:
most-recent-first, with BOTH the involved-resource-name filter and the
event-type filter applied client-side after retrieval, capped at the
limit.  Stated from the specification's words, for comparison with
`getEventsRun` (which delegates the name filter to the server via the
field selector). -/
def claimedClientSideEvents (p : EventsParams) (retrieved : List KEvent) :
    List EventRow :=
  let limit : Int := if p.limit ≤ 0 then 30 else p.limit
  ((retrieved.reverse.filter (fun ev =>
      (p.eventType = "" || ev.type == p.eventType) &&
      (p.resourceName = "" || ev.involvedObjectName == p.resourceName))).take
    limit.toNat).map eventRow

/-! ## Runtime resolver (the copilot CLI download path) -/

/-- The pinned version of the Copilot CLI. -/
def copilotVersion : String := "0.0.420"

/-- The base URL for the npm registry. -/
def npmRegistryURL : String := "https://registry.npmjs.org"

/-- platformPackage maps GOOS/GOARCH to the npm package name suffix. -/
def platformPackage : List (String × String) :=
  [ ("darwin/arm64", "darwin-arm64"),
    ("darwin/amd64", "darwin-x64"),
    ("linux/amd64", "linux-x64"),
    ("linux/arm64", "linux-arm64"),
    ("windows/amd64", "win32-x64"),
    ("windows/arm64", "win32-arm64") ]

/-- copilotBinaryName is "copilot.exe" on windows, "copilot" elsewhere. -/
def copilotBinaryName (goos : String) : String :=
  if goos = "windows" then "copilot.exe" else "copilot"

/-- One network request made by the download path. -/
inductive NetCall where
  | registryGet (url : String)
  | downloadGet (url : String)
deriving DecidableEq, Repr

/-- Environment of the download path: the registry's answer to the
metadata lookup (the tarball URL, collapsing HTTP status and JSON
decoding failures into the error case), the downloaded archive body,
and the outcome of extracting the binary from the archive into the
cache path. -/
structure NetEnv where
  registryTarball : String → Except String String
  download : String → Except String (List Nat)
  extract : List Nat → Except String Unit

/-- downloadCopilotCLI (part_000 lines 106-137 with resolveTarballURL
inlined as its registry request): map the OS/architecture pair through
the platform table — failing with an unsupported-platform error, before
any network request, when absent — then look up the tarball URL at the
npm registry, download it, and extract the binary into the cache
directory.  The second component records the network requests made, in
order. -/
def downloadCopilotCLI (goos goarch cacheDir : String) (env : NetEnv) :
    Except String String × List NetCall :=
  let platform := goos ++ "/" ++ goarch
  match platformPackage.lookup platform with
  | none => (Except.error ("unsupported platform: " ++ platform), [])
  | some pkg =>
      let url :=
        npmRegistryURL ++ "/@github/copilot-" ++ pkg ++ "/" ++ copilotVersion
      match env.registryTarball url with
      | Except.error e =>
          (Except.error ("resolving download URL: " ++ e),
           [NetCall.registryGet url])
      | Except.ok tarURL =>
          match env.download tarURL with
          | Except.error e =>
              (Except.error ("downloading: " ++ e),
               [NetCall.registryGet url, NetCall.downloadGet tarURL])
          | Except.ok body =>
              match env.extract body with
              | Except.error e =>
                  (Except.error ("extracting: " ++ e),
                   [NetCall.registryGet url, NetCall.downloadGet tarURL])
              | Except.ok _ =>
                  (Except.ok (cacheDir ++ "/" ++ copilotBinaryName goos),
                   [NetCall.registryGet url, NetCall.downloadGet tarURL])

/-! ## Classification of listener callbacks -/

/-- The response-lifecycle callbacks of the Listener contract: start,
complete, failed.  Delta/reasoning/tool callbacks are the live-activity
relays. -/
def ListenerCall.isResponseLifecycle : ListenerCall → Bool
  | ListenerCall.responseStart => true
  | ListenerCall.responseComplete _ => true
  | ListenerCall.responseFailed _ => true
  | _ => false

/-! ## Concrete fixtures used by witnesses and counterexamples -/

/-- A fully populated enabled configuration (the defaults of NewAI with
the enabled flag set). -/
def baseCfg : AIConfig :=
  { enabled := true, model := "gpt-4.1", provider := none, streaming := true,
    maxContextLines := 500, autoDiagnose := false, reasoningEffort := "",
    activeSkill := "", githubToken := "" }

/-- An initialized client with the built-in tools and no live session. -/
def readyClient : AIClient :=
  { client := some (), session := none, cfg := baseCfg, tools := BuildTools,
    allTools := BuildTools, skills := NewSkillRegistry, initialized := true }

/-- A disabled client. -/
def disabledClient : AIClient :=
  { readyClient with cfg := { baseCfg with enabled := false } }

/-- A concrete session handle for states with a live session. -/
def liveSession : Session :=
  { cfg := { model := "gpt-4.1", streaming := true, tools := BuildTools,
             systemMessage := k9sSystemMessage, reasoningEffort := none,
             provider := none }
    id := 7 }

/-- A client holding a live session. -/
def liveClient : AIClient :=
  { readyClient with session := some liveSession }

/-- An environment whose SendAndWait call fails. -/
def failEnv : SessionEnv :=
  { startOk := true, createOk := true, sessionId := 1, events := []
    sendResult := fun _ => Except.error "boom", envAPIKey := "", envBearer := "" }

/-- An environment whose SendAndWait call succeeds with a nil response. -/
def nilReplyEnv : SessionEnv :=
  { failEnv with sendResult := fun _ => Except.ok none }

/-- A log environment serving a three-byte stream. -/
def smallLogsEnv : LogsEnv :=
  { dialOk := true, stream := fun _ _ _ => Except.ok [104, 105, 10] }

/-- Concrete get_logs parameters with an enormous tail-line request. -/
def hugeTailParams : LogsParams :=
  { podName := "web-0", ns := "default", container := "", tailLines := 1000000000,
    previous := false }

/-- A stub network environment whose every request fails (never consulted
on the unsupported-platform path). -/
def stubNetEnv : NetEnv :=
  { registryTarball := fun _ => Except.error "unreachable"
    download := fun _ => Except.error "unreachable"
    extract := fun _ => Except.error "unreachable" }

/-- An event whose involved object is named "other". -/
def otherEvent : KEvent :=
  { type := "Normal", reason := "Scheduled", message := "ok",
    involvedObjectKind := "Pod", involvedObjectName := "other", count := 1,
    firstSeen := "t0", lastSeen := "t1" }

/-- A Warning event. -/
def warnEvent : KEvent :=
  { type := "Warning", reason := "BackOff", message := "crash",
    involvedObjectKind := "Pod", involvedObjectName := "web-0", count := 3,
    firstSeen := "t0", lastSeen := "t2" }

/-- An events environment whose API answer is a fixed list, whatever the
options say (in particular it does not evaluate the field selector). -/
def fixedEventsEnv (items : List KEvent) : EventsEnv :=
  { dialOk := true, list := fun _ _ => Except.ok items }

/-- get_events parameters requesting an involved-resource-name filter. -/
def nameFilterParams : EventsParams :=
  { ns := "default", resourceName := "mine", eventType := "", limit := 0 }

/-- get_events parameters requesting a Warning-type filter. -/
def warningFilterParams : EventsParams :=
  { ns := "default", resourceName := "", eventType := "Warning", limit := 0 }

end K9sAI

namespace K9sAI

/-! ## Helper lemmas -/

/-- The per-turn subscription handler never produces a response-lifecycle
callback: it relays only delta, reasoning and tool events. -/
theorem routeEvent_no_lifecycle (ev : SessionEvent) :
    (routeEvent ev).filter ListenerCall.isResponseLifecycle = [] := by
  obtain ⟨ty, dc, co, tn, ms⟩ := ev
  cases ty <;> (try cases dc) <;> (try cases co) <;> (try cases tn) <;> rfl

/-- No response-lifecycle callback appears among the relayed events of a
whole turn. -/
theorem relay_filter_lifecycle (evs : List SessionEvent) :
    (evs.flatMap routeEvent).filter ListenerCall.isResponseLifecycle = [] := by
  induction evs with
  | nil => rfl
  | cons ev rest ih =>
      rw [List.flatMap_cons, List.filter_append, routeEvent_no_lifecycle, ih]
      rfl

/-- In particular the relayed events contain no ResponseComplete. -/
theorem relay_no_responseComplete (evs : List SessionEvent) (t : String) :
    ListenerCall.responseComplete t ∉ evs.flatMap routeEvent := by
  intro hmem
  have : ListenerCall.responseComplete t ∈
      (evs.flatMap routeEvent).filter ListenerCall.isResponseLifecycle :=
    List.mem_filter.mpr ⟨hmem, rfl⟩
  rw [relay_filter_lifecycle] at this
  exact absurd this (List.not_mem_nil _)

/-- The collection loop of get_events equals a type filter, a limit
truncation and a row projection over its input list. -/
theorem collectEvents_eq (etype : String) (n : Nat) (l : List KEvent) :
    collectEvents etype n l =
      ((l.filter (fun ev => (etype == "") || (ev.type == etype))).take n).map
        eventRow := by
  induction l generalizing n with
  | nil => simp [collectEvents]
  | cons ev rest ih =>
      cases n with
      | zero => simp [collectEvents]
      | succ k =>
          by_cases hskip : etype ≠ "" ∧ ev.type ≠ etype
          · have hpred : ((etype == "") || (ev.type == etype)) = false := by
              simp [hskip.1, hskip.2]
            simp [collectEvents, hskip, List.filter_cons, hpred, ih]
          · have hor : etype = "" ∨ ev.type = etype := by
              rcases not_and_or.mp hskip with h | h
              · exact Or.inl (not_not.mp h)
              · exact Or.inr (not_not.mp h)
            have hpred : ((etype == "") || (ev.type == etype)) = true := by
              rcases hor with h | h <;> simp [h]
            simp [collectEvents, hskip, List.filter_cons, hpred,
              List.take_succ_cons, ih]

/-- When Send reaches the submission step — enabled, initialization in
place or lazily succeeding, a cached session or a successful creation —
and SendAndWait fails, the callback trace is ResponseStart, the relayed
events, then ResponseFailed with the wrapped error, and Send returns the
raw error. -/
theorem send_reaches_error (c : AIClient) (env : SessionEnv)
    (prompt e : String)
    (hen : c.cfg.enabled = true)
    (hinit : c.initialized = false → env.startOk = true)
    (hcli : c.initialized = true → c.client = some ())
    (hsess : c.session = none → env.createOk = true)
    (hfail : env.sendResult prompt = Except.error e) :
    (c.Send env prompt).calls =
      ListenerCall.responseStart :: (env.events.flatMap routeEvent ++
        [ListenerCall.responseFailed ("AI request failed: " ++ e)]) ∧
    (c.Send env prompt).res = Except.error e := by
  by_cases hI : c.initialized
  · have hcl := hcli hI
    cases hs : c.session with
    | some s =>
        constructor <;>
          simp [AIClient.Send, AIClient.EnsureSession, AIClient.IsEnabled,
            AIConfig.IsEnabled, hen, hI, hcl, hs, hfail]
    | none =>
        have hco := hsess hs
        constructor <;>
          simp [AIClient.Send, AIClient.EnsureSession, AIClient.createSession,
            AIClient.IsEnabled, AIConfig.IsEnabled, hen, hI, hcl, hs, hco,
            hfail]
  · rw [Bool.not_eq_true] at hI
    have hst := hinit hI
    cases hs : c.session with
    | some s =>
        constructor <;>
          simp [AIClient.Send, AIClient.Init, AIClient.EnsureSession,
            AIClient.IsEnabled, AIConfig.IsEnabled, hen, hI, hst, hs, hfail]
    | none =>
        have hco := hsess hs
        constructor <;>
          simp [AIClient.Send, AIClient.Init, AIClient.EnsureSession,
            AIClient.createSession, AIClient.IsEnabled, AIConfig.IsEnabled,
            hen, hI, hst, hs, hco, hfail]

/-- When Send reaches the submission step and SendAndWait succeeds, the
callback trace is ResponseStart, the relayed events, then
ResponseComplete with the extracted content, and Send returns no
error. -/
theorem send_reaches_ok (c : AIClient) (env : SessionEnv) (prompt : String)
    (resp : Option ResponseMessage)
    (hen : c.cfg.enabled = true)
    (hinit : c.initialized = false → env.startOk = true)
    (hcli : c.initialized = true → c.client = some ())
    (hsess : c.session = none → env.createOk = true)
    (hok : env.sendResult prompt = Except.ok resp) :
    (c.Send env prompt).calls =
      ListenerCall.responseStart :: (env.events.flatMap routeEvent ++
        [ListenerCall.responseComplete (responseContent resp)]) ∧
    (c.Send env prompt).res = Except.ok () := by
  by_cases hI : c.initialized
  · have hcl := hcli hI
    cases hs : c.session with
    | some s =>
        constructor <;>
          simp [AIClient.Send, AIClient.EnsureSession, AIClient.IsEnabled,
            AIConfig.IsEnabled, hen, hI, hcl, hs, hok]
    | none =>
        have hco := hsess hs
        constructor <;>
          simp [AIClient.Send, AIClient.EnsureSession, AIClient.createSession,
            AIClient.IsEnabled, AIConfig.IsEnabled, hen, hI, hcl, hs, hco, hok]
  · rw [Bool.not_eq_true] at hI
    have hst := hinit hI
    cases hs : c.session with
    | some s =>
        constructor <;>
          simp [AIClient.Send, AIClient.Init, AIClient.EnsureSession,
            AIClient.IsEnabled, AIConfig.IsEnabled, hen, hI, hst, hs, hok]
    | none =>
        have hco := hsess hs
        constructor <;>
          simp [AIClient.Send, AIClient.Init, AIClient.EnsureSession,
            AIClient.createSession, AIClient.IsEnabled, AIConfig.IsEnabled,
            hen, hI, hst, hs, hco, hok]

/-! ## Claim theorems -/

/-- C3: FilterTools is fail-open — the empty skill name and any name
absent from the registry return the input tool list unchanged — and a
registered non-empty name returns exactly the input tools whose names
appear in that skill's allowlist, preserving input order (a filter of
the input list). -/
theorem FilterTools_failOpen_allowlist (r : SkillRegistry) (name : String)
    (tools : List Tool) :
    (r.FilterTools "" tools = tools) ∧
    (r.find name = none → r.FilterTools name tools = tools) ∧
    (∀ skill, name ≠ "" → r.find name = some skill →
      r.FilterTools name tools =
        tools.filter (fun t => skill.toolNames.contains t.name)) := by
  refine ⟨by simp [SkillRegistry.FilterTools], ?_, ?_⟩
  · intro h
    by_cases hn : name = ""
    · simp [SkillRegistry.FilterTools, hn]
    · simp [SkillRegistry.FilterTools, hn, h]
  · intro skill hne hfind
    simp [SkillRegistry.FilterTools, hne, hfind]

/-- Witness for C3 on the built-in registry: empty name and an unknown
name are fail-open, and the security skill filters by its allowlist. -/
theorem FilterTools_failOpen_allowlist_witness :
    (NewSkillRegistry.FilterTools "" BuildTools = BuildTools) ∧
    (NewSkillRegistry.FilterTools "bogus" BuildTools = BuildTools) ∧
    (NewSkillRegistry.FilterTools "security" BuildTools =
      BuildTools.filter (fun t => securitySkill.toolNames.contains t.name)) :=
  ⟨(FilterTools_failOpen_allowlist NewSkillRegistry "bogus" BuildTools).1,
   (FilterTools_failOpen_allowlist NewSkillRegistry "bogus" BuildTools).2.1 rfl,
   (FilterTools_failOpen_allowlist NewSkillRegistry "security" BuildTools).2.2
     securitySkill (by decide) rfl⟩

/-- C7: for any full tool list containing the eight built-in tools,
filtering with the skill name "security" yields a tool list whose names
are exactly check_rbac, get_resource, describe_resource and
list_resources, however many tools are registered in total. -/
theorem security_filter_tool_names (ts : List Tool) (h : BuildTools ⊆ ts)
    (n : String) :
    n ∈ (NewSkillRegistry.FilterTools "security" ts).map Tool.name ↔
      n ∈ ["check_rbac", "get_resource", "describe_resource",
           "list_resources"] := by
  have hred : NewSkillRegistry.FilterTools "security" ts =
      ts.filter (fun t => securitySkill.toolNames.contains t.name) := by
    unfold SkillRegistry.FilterTools
    rw [if_neg (by decide)]
    rfl
  rw [hred]
  simp only [List.mem_map]
  constructor
  · rintro ⟨t, htf, rfl⟩
    exact List.mem_of_elem_eq_true (List.mem_filter.mp htf).2
  · intro hn
    have hex : ∃ t, t ∈ BuildTools ∧ t.name = n ∧
        securitySkill.toolNames.contains t.name = true := by
      have hall : ∀ m ∈ ["check_rbac", "get_resource", "describe_resource",
          "list_resources"], ∃ t, t ∈ BuildTools ∧ t.name = m ∧
            securitySkill.toolNames.contains t.name = true := by decide
      exact hall n hn
    obtain ⟨t, htB, hname, hcont⟩ := hex
    exact ⟨t, List.mem_filter.mpr ⟨h htB, hcont⟩, hname⟩

/-- Witness for C7: with the full built-in tool list, the name
check_rbac appears in the security-filtered list. -/
theorem security_filter_tool_names_witness :
    BuildTools ⊆ BuildTools ∧
    ("check_rbac" ∈
        (NewSkillRegistry.FilterTools "security" BuildTools).map Tool.name ↔
      "check_rbac" ∈ ["check_rbac", "get_resource", "describe_resource",
           "list_resources"]) :=
  ⟨List.Subset.refl _,
   security_filter_tool_names BuildTools (List.Subset.refl _) "check_rbac"⟩

/-- C4: Send on a disabled client returns the refusal error without
attempting Init and without invoking any listener callback. -/
theorem send_disabled_noop (c : AIClient) (env : SessionEnv) (prompt : String)
    (h : c.cfg.enabled = false) :
    (c.Send env prompt).res = Except.error
        "AI features are disabled. Enable in config: k9s.ai.enabled=true" ∧
    (c.Send env prompt).calls = [] ∧
    (c.Send env prompt).initAttempted = false := by
  refine ⟨?_, ?_, ?_⟩ <;>
    simp [AIClient.Send, AIClient.IsEnabled, AIConfig.IsEnabled, h]

/-- Witness for C4 on a concrete disabled client. -/
theorem send_disabled_noop_witness :
    disabledClient.cfg.enabled = false ∧
    ((disabledClient.Send failEnv "hello").res = Except.error
        "AI features are disabled. Enable in config: k9s.ai.enabled=true" ∧
     (disabledClient.Send failEnv "hello").calls = [] ∧
     (disabledClient.Send failEnv "hello").initAttempted = false) :=
  ⟨rfl, send_disabled_noop disabledClient failEnv "hello" rfl⟩

/-- C8: an OS/architecture pair absent from the supported-platform table
makes the download path fail immediately with the explicit
unsupported-platform error and an empty network-request trace — neither
the registry metadata lookup nor the archive download happens. -/
theorem downloadCopilotCLI_unsupported (goos goarch cacheDir : String)
    (env : NetEnv)
    (h : platformPackage.lookup (goos ++ "/" ++ goarch) = none) :
    downloadCopilotCLI goos goarch cacheDir env =
      (Except.error ("unsupported platform: " ++ (goos ++ "/" ++ goarch)),
       []) := by
  simp [downloadCopilotCLI, h]

/-- Witness for C8 at the unsupported pair plan9/386. -/
theorem downloadCopilotCLI_unsupported_witness :
    platformPackage.lookup ("plan9" ++ "/" ++ "386") = none ∧
    downloadCopilotCLI "plan9" "386" "/cache" stubNetEnv =
      (Except.error ("unsupported platform: " ++ ("plan9" ++ "/" ++ "386")),
       []) :=
  ⟨rfl, downloadCopilotCLI_unsupported "plan9" "386" "/cache" stubNetEnv rfl⟩

/-- C6: a successful get_logs call returns at most 262144 bytes
(256 KiB), whatever tail-line count was requested. -/
theorem getLogs_byte_ceiling (env : LogsEnv) (p : LogsParams)
    (bytes : List Nat) (h : getLogsRun env p = Except.ok bytes) :
    bytes.length ≤ 262144 := by
  by_cases hd : env.dialOk
  · cases hst : env.stream p.ns p.podName
        { container := p.container,
          tailLines := if p.tailLines ≤ 0 then 100 else p.tailLines,
          previous := p.previous } with
    | error e => simp [getLogsRun, hd, hst] at h
    | ok bs =>
        simp only [getLogsRun, hd, not_true_eq_false, if_false, hst,
          Bool.not_eq_true, Except.ok.injEq] at h
        rw [← h, List.length_take]
        exact le_trans (min_le_left _ _) (by norm_num [maxLogBytes])
  · simp [getLogsRun, hd] at h

/-- Witness for C6: a concrete successful call with a gigantic tail-line
request stays under the ceiling. -/
theorem getLogs_byte_ceiling_witness :
    getLogsRun smallLogsEnv hugeTailParams = Except.ok [104, 105, 10] ∧
    ([104, 105, 10] : List Nat).length ≤ 262144 :=
  ⟨rfl, getLogs_byte_ceiling smallLogsEnv hugeTailParams [104, 105, 10] rfl⟩

/-- C5 counterexample: the involved-resource-name filter is NOT applied
client-side.  With a retrieved list holding one event about an object
named "other" and a requested resource-name filter "mine", the handler
returns that event (it only delegates the name filter to the server via
the field selector), while the claimed client-side filtering would
return no event. -/
theorem getEvents_clientSideNameFilter_cex :
    getEventsRun (fixedEventsEnv [otherEvent]) nameFilterParams =
      Except.ok { total := 1, events := [eventRow otherEvent] } ∧
    claimedClientSideEvents nameFilterParams [otherEvent] = [] := by
  constructor
  · rfl
  · rfl

/-- C5 (amended): a successful get_events call returns the retrieved
events most-recent-first (the retrieved order reversed), with the
event-type filter applied client-side after retrieval and at most the
requested limit (default 30) of them; the involved-resource-name filter
is delegated to the API server through the field selector of the list
options rather than applied client-side. -/
theorem getEvents_order_filter_limit (env : EventsEnv) (p : EventsParams)
    (r : EventsResult) (h : getEventsRun env p = Except.ok r) :
    ∃ items, env.list p.ns (eventsListOptions p) = Except.ok items ∧
      r.events = ((items.reverse.filter
          (fun ev => (p.eventType == "") || (ev.type == p.eventType))).take
            (if p.limit ≤ 0 then 30 else p.limit).toNat).map eventRow ∧
      r.events.length ≤ (if p.limit ≤ 0 then 30 else p.limit).toNat ∧
      (eventsListOptions p).fieldSelector =
        (if p.resourceName ≠ "" then "involvedObject.name=" ++ p.resourceName
         else "") := by
  by_cases hd : env.dialOk
  · cases hl : env.list p.ns (eventsListOptions p) with
    | error e => simp [getEventsRun, hd, hl] at h
    | ok items =>
        simp only [getEventsRun, hd, not_true_eq_false, if_false,
          Bool.not_eq_true, hl, Except.ok.injEq] at h
        refine ⟨items, rfl, ?_, ?_, rfl⟩
        · rw [← h]
          exact collectEvents_eq p.eventType _ items.reverse
        · rw [← h]
          rw [collectEvents_eq, List.length_map]
          exact le_trans (le_of_eq (List.length_take _ _)) (min_le_left _ _)
  · simp [getEventsRun, hd] at h

/-- Witness for C5's amended theorem at a concrete environment. -/
theorem getEvents_order_filter_limit_witness :
    getEventsRun (fixedEventsEnv [otherEvent, warnEvent])
        warningFilterParams =
      Except.ok { total := 2, events := [eventRow warnEvent] } ∧
    (∃ items, (fixedEventsEnv [otherEvent, warnEvent]).list
        warningFilterParams.ns (eventsListOptions warningFilterParams) =
          Except.ok items ∧
      (EventsResult.mk 2 [eventRow warnEvent]).events =
        ((items.reverse.filter (fun ev =>
            (warningFilterParams.eventType == "") ||
            (ev.type == warningFilterParams.eventType))).take
          (if warningFilterParams.limit ≤ 0 then 30
           else warningFilterParams.limit).toNat).map eventRow ∧
      (EventsResult.mk 2 [eventRow warnEvent]).events.length ≤
        (if warningFilterParams.limit ≤ 0 then 30
         else warningFilterParams.limit).toNat ∧
      (eventsListOptions warningFilterParams).fieldSelector =
        (if warningFilterParams.resourceName ≠ "" then
          "involvedObject.name=" ++ warningFilterParams.resourceName
         else "")) :=
  ⟨rfl, getEvents_order_filter_limit (fixedEventsEnv [otherEvent, warnEvent])
    warningFilterParams (EventsResult.mk 2 [eventRow warnEvent]) rfl⟩

/-- C10: the total field of a successful get_events result equals the
size of the retrieved event list, before event-type filtering and limit
truncation; consequently total can strictly exceed the number of rows
returned, as a concrete run shows. -/
theorem getEvents_total_preFilter (env : EventsEnv) (p : EventsParams)
    (r : EventsResult) (h : getEventsRun env p = Except.ok r) :
    (∃ items, env.list p.ns (eventsListOptions p) = Except.ok items ∧
      r.total = items.length) ∧
    (∃ env2 p2 r2, getEventsRun env2 p2 = Except.ok r2 ∧
      r2.events.length < r2.total) := by
  constructor
  · by_cases hd : env.dialOk
    · cases hl : env.list p.ns (eventsListOptions p) with
      | error e => simp [getEventsRun, hd, hl] at h
      | ok items =>
          simp only [getEventsRun, hd, not_true_eq_false, if_false,
            Bool.not_eq_true, hl, Except.ok.injEq] at h
          exact ⟨items, rfl, by rw [← h]⟩
    · simp [getEventsRun, hd] at h
  · refine ⟨fixedEventsEnv [otherEvent, warnEvent], warningFilterParams,
      EventsResult.mk 2 [eventRow warnEvent], rfl, ?_⟩
    simp

/-- Witness for C10 at a concrete run where total is 2 and one row is
returned. -/
theorem getEvents_total_preFilter_witness :
    getEventsRun (fixedEventsEnv [otherEvent, warnEvent])
        warningFilterParams =
      Except.ok (EventsResult.mk 2 [eventRow warnEvent]) ∧
    ((∃ items, (fixedEventsEnv [otherEvent, warnEvent]).list
        warningFilterParams.ns (eventsListOptions warningFilterParams) =
          Except.ok items ∧
      (EventsResult.mk 2 [eventRow warnEvent]).total = items.length) ∧
     (∃ env2 p2 r2, getEventsRun env2 p2 = Except.ok r2 ∧
       r2.events.length < r2.total)) :=
  ⟨rfl, getEvents_total_preFilter (fixedEventsEnv [otherEvent, warnEvent])
    warningFilterParams (EventsResult.mk 2 [eventRow warnEvent]) rfl⟩

/-- C1: when Send reaches the submission step (enabled, initialization
in place or lazily succeeding, a cached session or a successful
creation) and the SendAndWait call fails, the response-lifecycle
callbacks invoked are exactly ResponseStart followed by ResponseFailed
with the wrapped error, ResponseComplete is never invoked, and Send
returns a non-nil error (the raw SendAndWait error). -/
theorem send_submit_failure (c : AIClient) (env : SessionEnv)
    (prompt e : String)
    (hen : c.cfg.enabled = true)
    (hinit : c.initialized = false → env.startOk = true)
    (hcli : c.initialized = true → c.client = some ())
    (hsess : c.session = none → env.createOk = true)
    (hfail : env.sendResult prompt = Except.error e) :
    (c.Send env prompt).calls.filter ListenerCall.isResponseLifecycle =
      [ListenerCall.responseStart,
       ListenerCall.responseFailed ("AI request failed: " ++ e)] ∧
    (∀ t, ListenerCall.responseComplete t ∉ (c.Send env prompt).calls) ∧
    (c.Send env prompt).res = Except.error e := by
  obtain ⟨hcalls, hres⟩ := send_reaches_error c env prompt e hen hinit hcli
    hsess hfail
  refine ⟨?_, ?_, hres⟩
  · rw [hcalls, List.filter_cons, List.filter_append,
      relay_filter_lifecycle]
    rfl
  · intro t hmem
    rw [hcalls] at hmem
    rcases List.mem_cons.mp hmem with h | h
    · simp at h
    · rcases List.mem_append.mp h with h2 | h2
      · exact relay_no_responseComplete env.events t h2
      · simp at h2

/-- Witness for C1 on a ready client whose SendAndWait fails. -/
theorem send_submit_failure_witness :
    readyClient.cfg.enabled = true ∧
    ((readyClient.Send failEnv "hi").calls.filter
        ListenerCall.isResponseLifecycle =
      [ListenerCall.responseStart,
       ListenerCall.responseFailed ("AI request failed: " ++ "boom")] ∧
     (∀ t, ListenerCall.responseComplete t ∉
        (readyClient.Send failEnv "hi").calls) ∧
     (readyClient.Send failEnv "hi").res = Except.error "boom") :=
  ⟨rfl, send_submit_failure readyClient failEnv "hi" "boom" rfl
    (fun _ => rfl) (fun _ => rfl) (fun _ => rfl) rfl⟩

/-- C9: when Send reaches the submission step and SendAndWait succeeds
with a nil response or a response whose content field is nil, Send
still returns success and the final callback is ResponseComplete with
the empty string. -/
theorem send_nil_content_success (c : AIClient) (env : SessionEnv)
    (prompt : String) (resp : Option ResponseMessage)
    (hen : c.cfg.enabled = true)
    (hinit : c.initialized = false → env.startOk = true)
    (hcli : c.initialized = true → c.client = some ())
    (hsess : c.session = none → env.createOk = true)
    (hok : env.sendResult prompt = Except.ok resp)
    (hnil : resp = none ∨ ∃ m, resp = some m ∧ m.content = none) :
    (c.Send env prompt).res = Except.ok () ∧
    (c.Send env prompt).calls.getLast? =
      some (ListenerCall.responseComplete "") ∧
    ListenerCall.responseComplete "" ∈ (c.Send env prompt).calls := by
  obtain ⟨hcalls, hres⟩ := send_reaches_ok c env prompt resp hen hinit hcli
    hsess hok
  have hrc : responseContent resp = "" := by
    rcases hnil with rfl | ⟨m, rfl, hm⟩
    · rfl
    · simp [responseContent, hm]
  rw [hrc] at hcalls
  refine ⟨hres, ?_, ?_⟩
  · rw [hcalls, ← List.cons_append, List.getLast?_concat]
  · rw [hcalls]
    exact List.mem_cons_of_mem _
      (List.mem_append_right _ (List.mem_singleton_self _))

/-- Witness for C9 on a ready client whose SendAndWait returns a nil
response. -/
theorem send_nil_content_success_witness :
    readyClient.cfg.enabled = true ∧
    ((readyClient.Send nilReplyEnv "hi").res = Except.ok () ∧
     (readyClient.Send nilReplyEnv "hi").calls.getLast? =
       some (ListenerCall.responseComplete "") ∧
     ListenerCall.responseComplete "" ∈
       (readyClient.Send nilReplyEnv "hi").calls) :=
  ⟨rfl, send_nil_content_success readyClient nilReplyEnv "hi" none rfl
    (fun _ => rfl) (fun _ => rfl) (fun _ => rfl) rfl (Or.inl rfl)⟩

/-- C2: while a live session exists, SetSkill and SetModel each destroy
it (the session handle becomes null), and the next EnsureSession call
creates a fresh session whose system prompt, tool list and model
reflect the updated skill/model configuration. -/
theorem setSkill_setModel_destroy_session (c : AIClient) (env : SessionEnv)
    (name model : String) (s : Session)
    (hs : c.session = some s)
    (hinit : c.initialized = true) (hcl : c.client = some ())
    (hok : env.createOk = true) :
    (c.SetSkill name).session = none ∧
    (c.SetModel model).session = none ∧
    (∃ s1, ((c.SetSkill name).EnsureSession env).1 = Except.ok s1 ∧
      ((c.SetSkill name).EnsureSession env).2.session = some s1 ∧
      s1.cfg.systemMessage =
        (if c.skills.SystemMessageSuffix name ≠ "" then
          k9sSystemMessage ++ "\n\n" ++ c.skills.SystemMessageSuffix name
         else k9sSystemMessage) ∧
      s1.cfg.tools = c.skills.FilterTools name c.allTools ∧
      s1.cfg.model = c.cfg.model) ∧
    (∃ s2, ((c.SetModel model).EnsureSession env).1 = Except.ok s2 ∧
      ((c.SetModel model).EnsureSession env).2.session = some s2 ∧
      s2.cfg.model = model ∧
      s2.cfg.tools = c.tools ∧
      s2.cfg.systemMessage =
        (if c.skills.SystemMessageSuffix c.cfg.activeSkill ≠ "" then
          k9sSystemMessage ++ "\n\n" ++
            c.skills.SystemMessageSuffix c.cfg.activeSkill
         else k9sSystemMessage)) := by
  refine ⟨rfl, rfl, ?_, ?_⟩
  · refine ⟨{ cfg := (c.SetSkill name).sessionConfig env,
              id := env.sessionId }, ?_, ?_, ?_, ?_, ?_⟩ <;>
      simp [AIClient.SetSkill, AIClient.EnsureSession, AIClient.createSession,
        AIClient.sessionConfig, hinit, hcl, hok]
  · refine ⟨{ cfg := (c.SetModel model).sessionConfig env,
              id := env.sessionId }, ?_, ?_, ?_, ?_, ?_⟩ <;>
      simp [AIClient.SetModel, AIClient.EnsureSession, AIClient.createSession,
        AIClient.sessionConfig, hinit, hcl, hok]

/-- Witness for C2 on a client holding a live session, switching to the
security skill and another model. -/
theorem setSkill_setModel_destroy_session_witness :
    liveClient.session = some liveSession ∧
    ((liveClient.SetSkill "security").session = none ∧
     (liveClient.SetModel "claude").session = none ∧
     (∃ s1, ((liveClient.SetSkill "security").EnsureSession failEnv).1 =
          Except.ok s1 ∧
        ((liveClient.SetSkill "security").EnsureSession failEnv).2.session =
          some s1 ∧
        s1.cfg.systemMessage =
          (if liveClient.skills.SystemMessageSuffix "security" ≠ "" then
            k9sSystemMessage ++ "\n\n" ++
              liveClient.skills.SystemMessageSuffix "security"
           else k9sSystemMessage) ∧
        s1.cfg.tools =
          liveClient.skills.FilterTools "security" liveClient.allTools ∧
        s1.cfg.model = liveClient.cfg.model) ∧
     (∃ s2, ((liveClient.SetModel "claude").EnsureSession failEnv).1 =
          Except.ok s2 ∧
        ((liveClient.SetModel "claude").EnsureSession failEnv).2.session =
          some s2 ∧
        s2.cfg.model = "claude" ∧
        s2.cfg.tools = liveClient.tools ∧
        s2.cfg.systemMessage =
          (if liveClient.skills.SystemMessageSuffix
              liveClient.cfg.activeSkill ≠ "" then
            k9sSystemMessage ++ "\n\n" ++
              liveClient.skills.SystemMessageSuffix liveClient.cfg.activeSkill
           else k9sSystemMessage))) :=
  ⟨rfl, setSkill_setModel_destroy_session liveClient failEnv "security"
    "claude" liveSession rfl rfl rfl rfl⟩

end K9sAI
